import Mathlib

/-!
Verification development for the MoneyQash backend core: the activation
state machine, the referral reward engine, and the withdrawal settlement
flow.  The definitions below are a shallow embedding of the TypeScript
source (`src/routes.ts`, `auth.ts`, `storage.ts`, `shared/schema.ts`):
relational rows become structures, the database becomes lists inside a
`Storage` record, and each route handler becomes a pure state-transition
function.  Asynchronous gateway outcomes (STK push, B2C) are passed in as
explicit parameters, since the handlers only branch on the value that the
gateway call produced (or on the fact that it threw).
-/

namespace MoneyQash

/-- A row of the `users` table (shared/schema.ts).  Only the fields read or
written by the activation / referral / withdrawal core are kept. -/
@[ext] structure User where
  id : Nat
  username : String
  isActivated : Bool
  accountBalance : Int
  adBalance : Int
  tiktokBalance : Int
  youtubeBalance : Int
  instagramBalance : Int
  referralCode : String
  referrerId : Option Nat
  deriving Repr, DecidableEq

/-- A row of the `referrals` table: one level-1 or level-2 referral edge. -/
@[ext] structure Referral where
  id : Nat
  referrerId : Nat
  referredId : Nat
  referredUsername : String
  level : Nat
  amount : Int
  isActive : Bool
  deriving Repr, DecidableEq

/-- A row of the append-only `earnings` ledger table. -/
@[ext] structure Earning where
  userId : Nat
  source : String
  amount : Int
  description : String
  deriving Repr, DecidableEq

/-- A row of the `withdrawals` table. -/
@[ext] structure WithdrawalRec where
  id : Nat
  userId : Nat
  source : String
  amount : Int
  fee : Int
  status : String
  paymentMethod : String
  phoneNumber : String
  mpesaConversationId : Option String
  mpesaOriginatorConversationId : Option String
  failureReason : Option String
  deriving Repr, DecidableEq

/-- A row of the `mpesa_transactions` table.  The M-Pesa receipt number is
an opaque token; it is modelled by the same value type as the callback
metadata items. -/
@[ext] structure MpesaTransaction where
  id : Nat
  userId : Nat
  status : String
  amount : Int
  checkoutRequestId : String
  merchantRequestId : String
  resultCode : Option Int
  resultDesc : Option String
  mpesaReceiptNumber : Option Int
  deriving Repr, DecidableEq

/-- The whole mutable state: the relational store plus the in-memory
`pendingActivationsMap` (routes.ts line 17, CheckoutRequestID -> userId).
The `next*` counters model the `serial` primary keys. -/
@[ext] structure Storage where
  users : List User
  referrals : List Referral
  earnings : List Earning
  withdrawals : List WithdrawalRec
  transactions : List MpesaTransaction
  pendingActivationsMap : List (String × Nat)
  nextUserId : Nat
  nextReferralId : Nat
  nextWithdrawalId : Nat
  nextTransactionId : Nat
  deriving Repr, DecidableEq

/-! ### Storage operations (storage.ts, `DrizzleStorage`) -/

/-- Model of `storage.getUser(id)`. -/
def getUser (s : Storage) (id : Nat) : Option User :=
  s.users.find? (fun u => u.id == id)

/-- Model of `storage.getUserByReferralCode(code)`. -/
def getUserByReferralCode (s : Storage) (code : String) : Option User :=
  s.users.find? (fun u => u.referralCode == code)

/-- Model of `storage.updateUser(id, patch)`: applies the patch to the row with the
given id and returns the updated row (or `none` when no row matched). -/
def updateUser (s : Storage) (id : Nat) (patch : User → User) :
    Storage × Option User :=
  ({ s with users := s.users.map (fun u => if u.id == id then patch u else u) },
   (s.users.find? (fun u => u.id == id)).map patch)

/-- Model of `storage.createReferral(data)`: inserts a fresh row. -/
def createReferral (s : Storage) (referrerId referredId : Nat)
    (referredUsername : String) (level : Nat) (amount : Int)
    (isActive : Bool) : Storage :=
  { s with
    referrals := s.referrals ++
      [{ id := s.nextReferralId, referrerId, referredId, referredUsername,
         level, amount, isActive }],
    nextReferralId := s.nextReferralId + 1 }

/-- Model of `storage.getReferralsByReferrerId(referrerId)`. -/
def getReferralsByReferrerId (s : Storage) (referrerId : Nat) : List Referral :=
  s.referrals.filter (fun r => r.referrerId == referrerId)

/-- Model of `storage.getReferralsByReferredId(referredId)`. -/
def getReferralsByReferredId (s : Storage) (referredId : Nat) : List Referral :=
  s.referrals.filter (fun r => r.referredId == referredId)

/-- Lookup of a referral row by primary key (used to state theorems). -/
def getReferral (s : Storage) (id : Nat) : Option Referral :=
  s.referrals.find? (fun r => r.id == id)

/-- Model of `storage.updateReferral(id, patch)`. -/
def updateReferral (s : Storage) (id : Nat) (patch : Referral → Referral) :
    Storage :=
  { s with
    referrals := s.referrals.map (fun r => if r.id == id then patch r else r) }

/-- Model of `storage.createEarning(data)`: appends a ledger row. -/
def createEarning (s : Storage) (e : Earning) : Storage :=
  { s with earnings := s.earnings ++ [e] }

/-- Model of `storage.createWithdrawal(data)`: inserts a fresh row in the given
status and returns it. -/
def createWithdrawal (s : Storage) (userId : Nat) (source : String)
    (amount fee : Int) (status paymentMethod phoneNumber : String) :
    Storage × WithdrawalRec :=
  let w : WithdrawalRec :=
    { id := s.nextWithdrawalId, userId, source, amount, fee, status,
      paymentMethod, phoneNumber, mpesaConversationId := none,
      mpesaOriginatorConversationId := none, failureReason := none }
  ({ s with withdrawals := s.withdrawals ++ [w],
            nextWithdrawalId := s.nextWithdrawalId + 1 }, w)

/-- Model of `storage.updateWithdrawal(id, patch)`. -/
def updateWithdrawal (s : Storage) (id : Nat)
    (patch : WithdrawalRec → WithdrawalRec) : Storage :=
  { s with
    withdrawals :=
      s.withdrawals.map (fun w => if w.id == id then patch w else w) }

/-- Model of `storage.createMpesaTransaction(data)`: inserts a fresh row and
returns it. -/
def createMpesaTransaction (s : Storage) (userId : Nat) (status : String)
    (amount : Int) (checkoutRequestId merchantRequestId : String) :
    Storage × MpesaTransaction :=
  let t : MpesaTransaction :=
    { id := s.nextTransactionId, userId, status, amount, checkoutRequestId,
      merchantRequestId, resultCode := none, resultDesc := none,
      mpesaReceiptNumber := none }
  ({ s with transactions := s.transactions ++ [t],
            nextTransactionId := s.nextTransactionId + 1 }, t)

/-- Model of `storage.updateMpesaTransaction(id, patch)`. -/
def updateMpesaTransaction (s : Storage) (id : Nat)
    (patch : MpesaTransaction → MpesaTransaction) : Storage :=
  { s with
    transactions :=
      s.transactions.map (fun t => if t.id == id then patch t else t) }

/-- Model of `storage.getMpesaTransactionByCheckoutId(checkoutRequestId)`. -/
def getMpesaTransactionByCheckoutId (s : Storage) (checkoutRequestId : String) :
    Option MpesaTransaction :=
  s.transactions.find? (fun t => t.checkoutRequestId == checkoutRequestId)

/-- Insertion step of the descending-id sort used below. -/
def insertByIdDesc (t : MpesaTransaction) :
    List MpesaTransaction → List MpesaTransaction
  | [] => [t]
  | h :: rest =>
      if h.id ≤ t.id then t :: h :: rest else h :: insertByIdDesc t rest

/-- Model of `storage.getMpesaTransactionsByUserId(userId)`: the user's rows ordered
by descending id (`orderBy(desc(mpesaTransactions.id))`). -/
def getMpesaTransactionsByUserId (s : Storage) (userId : Nat) :
    List MpesaTransaction :=
  (s.transactions.filter (fun t => t.userId == userId)).foldr insertByIdDesc []

/-! ### The in-memory pending-activations map (a JS `Map`) -/

/-- Model of `pendingActivationsMap.get(k)`. -/
def mapGet (m : List (String × Nat)) (k : String) : Option Nat :=
  (m.find? (fun e => e.1 == k)).map (fun e => e.2)

/-- Model of `pendingActivationsMap.delete(k)`. -/
def mapDelete (m : List (String × Nat)) (k : String) : List (String × Nat) :=
  m.filter (fun e => ¬ e.1 == k)

/-- Model of `pendingActivationsMap.set(k, v)` (JS `Map` semantics: replace the
existing key or append). -/
def mapSet (m : List (String × Nat)) (k : String) (v : Nat) :
    List (String × Nat) :=
  if m.any (fun e => e.1 == k) then
    m.map (fun e => if e.1 == k then (k, v) else e)
  else m ++ [(k, v)]

/-- Model of `Array.from(pendingActivationsMap.entries()).some(([_, uid]) => uid === userId)`. -/
def hasPendingFor (m : List (String × Nat)) (userId : Nat) : Bool :=
  m.any (fun e => e.2 == userId)

/-- The activate route's stale-entry sweep: delete every entry mapping to
the given user (routes.ts lines 250-254). -/
def clearPendingFor (m : List (String × Nat)) (userId : Nat) :
    List (String × Nat) :=
  m.filter (fun e => ¬ e.2 == userId)

/-! ### Referral reward engine (routes.ts, `processReferralRewards`) -/

/-- The `if (rewardAmount > 0)` block of `processReferralRewards`
(routes.ts lines 855-879): mark the edge active with the computed amount,
append the referral `EarningRecord`, and credit the referrer's general
balance (`currentBalance + rewardAmount`, read from the `referrer` row
fetched at the top of the loop iteration). -/
def grantReward (s : Storage) (referral : Referral) (referrer : User)
    (rewardAmount : Int) : Storage :=
  let s1 := updateReferral s referral.id
    (fun r => { r with isActive := true, amount := rewardAmount })
  let s2 := createEarning s1
    { userId := referrer.id, source := "referral", amount := rewardAmount,
      description := "Level " ++ toString referral.level ++
        " referral reward for user activation" }
  (updateUser s2 referrer.id
    (fun u => { u with
      accountBalance := referrer.accountBalance + rewardAmount })).1

/-- The body of the `for (const referral of referrals)` loop of
`processReferralRewards` (routes.ts lines 826-881): skip active edges,
compute the level-dependent reward, then grant it. -/
def processReferralEdge (s : Storage) (referral : Referral) : Storage :=
  if referral.isActive then s
  else
    match getUser s referral.referrerId with
    | none => s
    | some referrer =>
        let rewardAmount : Int :=
          if referral.level == 1 then
            let referrerReferrals := getReferralsByReferrerId s referral.referrerId
            let activeDirectReferrals :=
              referrerReferrals.filter (fun r => r.level == 1 && r.isActive)
            if activeDirectReferrals.length == 0 then 300 else 270
          else if referral.level == 2 then 150
          else 0
        if 0 < rewardAmount then grantReward s referral referrer rewardAmount
        else s

/-- Model of `processReferralRewards(activatedUserId)` (routes.ts lines 820-885):
fetch the edges naming this user as the referred party once, then process
each of them against the evolving store. -/
def processReferralRewards (s : Storage) (activatedUserId : Nat) : Storage :=
  (getReferralsByReferredId s activatedUserId).foldl processReferralEdge s

/-! ### M-Pesa callback handler (routes.ts, `app.post("/api/mpesa/callback")`) -/

/-- One entry of `CallbackMetadata.Item` (`{ Name, Value }`).  The values
that the handler reads (the paid `Amount` and the opaque
`MpesaReceiptNumber` token) are modelled as integers. -/
structure CallbackItem where
  name : String
  value : Int
  deriving Repr, DecidableEq

/-- Model of `Body.stkCallback` of the gateway's callback payload. -/
structure StkCallback where
  merchantRequestID : String
  checkoutRequestID : String
  resultCode : Int
  resultDesc : String
  metadata : Option (List CallbackItem)
  deriving Repr, DecidableEq

/-- The whole callback payload; `body = none` models a request whose
`req.body.Body?.stkCallback` is absent (structurally malformed). -/
structure CallbackPayload where
  body : Option StkCallback
  deriving Repr, DecidableEq

/-- Model of `CallbackMetadata?.Item?.find(item => item.Name === n)?.Value`. -/
def findItem (metadata : Option (List CallbackItem)) (n : String) : Option Int :=
  match metadata with
  | none => none
  | some items => (items.find? (fun it => it.name == n)).map (fun it => it.value)

/-- The JSON answer the callback route sends back to the gateway. -/
inductive CallbackResponse where
  | malformed
  | unknownTransaction
  | noAmount
  | amountMismatch
  | successAck
  | failureAck
  deriving Repr, DecidableEq

/-- Returns `true` exactly for the HTTP-200 acknowledgments (the two `res.status(200)`
answers of the route); the other four answers are 400-level errors. -/
def CallbackResponse.isAck : CallbackResponse → Bool
  | .successAck => true
  | .failureAck => true
  | _ => false

/-- The unconditional transaction update performed on every resolved
callback (routes.ts lines 725-730). -/
def callbackTxnPatch (cb : StkCallback) (t : MpesaTransaction) :
    MpesaTransaction :=
  { t with
    status := if cb.resultCode == 0 then "completed" else "failed",
    resultCode := some cb.resultCode,
    resultDesc := some cb.resultDesc,
    mpesaReceiptNumber := findItem cb.metadata "MpesaReceiptNumber" }

/-- Model of `pendingActivationsMap.delete(checkoutRequestID)` as a storage step. -/
def removePendingEntry (s : Storage) (k : String) : Storage :=
  { s with pendingActivationsMap := mapDelete s.pendingActivationsMap k }

/-- Model of `app.post("/api/mpesa/callback")` (routes.ts lines 698-817) as a state
transition.  Storage operations are assumed not to throw, so the
`try/catch` wrappers collapse to the plain calls.  The code's
`if (updatedUser)` test on the row returned by `storage.updateUser` is the
`isSome` test on the returned option. -/
def handleMpesaCallback (s : Storage) (p : CallbackPayload) :
    Storage × CallbackResponse :=
  match p.body with
  | none => (s, .malformed)
  | some cb =>
      match getMpesaTransactionByCheckoutId s cb.checkoutRequestID with
      | none => (s, .unknownTransaction)
      | some transaction =>
          let s1 := updateMpesaTransaction s transaction.id (callbackTxnPatch cb)
          if cb.resultCode == 0 then
            match findItem cb.metadata "Amount" with
            | none => (s1, .noAmount)
            | some paidAmount =>
                if ¬ paidAmount == transaction.amount then
                  (updateMpesaTransaction s1 transaction.id
                    (fun t => { t with status := "failed",
                                       resultDesc := some "Amount mismatch" }),
                   .amountMismatch)
                else
                  match mapGet s1.pendingActivationsMap cb.checkoutRequestID with
                  | none => (s1, .successAck)
                  | some userIdToActivate =>
                      let upd := updateUser s1 userIdToActivate
                        (fun u => { u with isActivated := true })
                      if upd.2.isSome then
                        (removePendingEntry
                          (processReferralRewards upd.1 userIdToActivate)
                          cb.checkoutRequestID, .successAck)
                      else (upd.1, .successAck)
          else
            match mapGet s1.pendingActivationsMap cb.checkoutRequestID with
            | none => (s1, .failureAck)
            | some userId =>
                let s2 := (updateUser s1 userId
                  (fun u => { u with isActivated := false,
                                     accountBalance := 0 })).1
                (removePendingEntry s2 cb.checkoutRequestID, .failureAck)

/-! ### Activation initiation (routes.ts, `app.post("/api/user/activate")`) -/

/-- Outcome of the `initiateSTKPush` call as the route observes it:
either the response object (whose `CheckoutRequestID` may be missing or
empty, i.e. falsy), or a thrown error (mpesa.ts lines 108-112). -/
inductive StkResult where
  | ok (checkoutRequestID merchantRequestID : String)
  | thrown
  deriving Repr, DecidableEq

/-- The route's answer. -/
inductive ActivateResult where
  | invalidPhone
  | alreadyActivated
  | pendingActivation
  | trackingFailed
  | paymentError
  | initiated (checkoutRequestID : String)
  | unsupportedMethod
  deriving Repr, DecidableEq

/-- Model of `phone.replace(/[^0-9]/g, '')`. -/
def digitsOnly (p : String) : String :=
  String.mk (p.data.filter Char.isDigit)

/-- Model of `t.startsWith(pre)`. -/
def strStartsWith (t pre : String) : Bool :=
  pre.data.isPrefixOf t.data

/-- Model of `pendingActivationsMap.set(checkoutRequestID, userId)` as a storage
step. -/
def setPendingEntry (s : Storage) (k : String) (v : Nat) : Storage :=
  { s with pendingActivationsMap := mapSet s.pendingActivationsMap k v }

/-- Steps of `app.post("/api/user/activate")` from transaction creation
onward (routes.ts lines 262-307): create the pending transaction row, call
the gateway, and either register the pending activation and record the
correlation ids, or surface the failure with the row left behind. -/
def activateFromTxn (s : Storage) (userId : Nat) (paymentAmount : Int)
    (stk : StkResult) : Storage × ActivateResult :=
  let ct := createMpesaTransaction s userId "pending" paymentAmount "" ""
  match stk with
  | .ok checkoutRequestID merchantRequestID =>
      if ¬ checkoutRequestID == "" then
        let s2 := setPendingEntry ct.1 checkoutRequestID userId
        let s3 := updateMpesaTransaction s2 ct.2.id
          (fun t => { t with checkoutRequestId := checkoutRequestID,
                             merchantRequestId := merchantRequestID })
        (s3, .initiated checkoutRequestID)
      else (ct.1, .trackingFailed)
  | .thrown => (ct.1, .paymentError)

/-- Model of `app.post("/api/user/activate")` (routes.ts lines 198-319).  `user` is
the session user (`req.user`), `stk` the gateway outcome.  The phone is
validated, then the already-activated and pending-activation guards run,
then `activateFromTxn`. -/
def activateUser (s : Storage) (user : User) (paymentMethod phoneRaw : String)
    (paymentAmount : Int) (stk : StkResult) : Storage × ActivateResult :=
  let phoneNumber := digitsOnly phoneRaw
  if ¬ strStartsWith phoneNumber "254" then (s, .invalidPhone)
  else if ¬ phoneNumber.length == 12 then (s, .invalidPhone)
  else if paymentMethod == "M-Pesa" then
    let hasPendingActivation := hasPendingFor s.pendingActivationsMap user.id
    if user.isActivated then (s, .alreadyActivated)
    else if hasPendingActivation then
      let transactions := getMpesaTransactionsByUserId s user.id
      match transactions.getLast? with
      | some latest =>
          if ¬ latest.status == "pending" then
            let m0 := clearPendingFor s.pendingActivationsMap user.id
            let s1 := { s with pendingActivationsMap := m0 }
            activateFromTxn s1 user.id paymentAmount stk
          else (s, .pendingActivation)
      | none => (s, .pendingActivation)
    else activateFromTxn s user.id paymentAmount stk
  else (s, .unsupportedMethod)

/-! ### Withdrawal settlement (routes.ts, `app.post("/api/withdrawals")`) -/

/-- The `switch (source)` resolving which balance counter backs the
requested source (routes.ts lines 518-541); `none` is the `default` branch
(invalid source). -/
def balanceOf (u : User) : String → Option Int
  | "referral" => some u.accountBalance
  | "ad" => some u.adBalance
  | "tiktok" => some u.tiktokBalance
  | "youtube" => some u.youtubeBalance
  | "instagram" => some u.instagramBalance
  | _ => none

/-- The dynamic `balanceUpdate[balanceField] = v` write paired with
`balanceOf`. -/
def setBalance (u : User) (source : String) (v : Int) : User :=
  match source with
  | "referral" => { u with accountBalance := v }
  | "ad" => { u with adBalance := v }
  | "tiktok" => { u with tiktokBalance := v }
  | "youtube" => { u with youtubeBalance := v }
  | "instagram" => { u with instagramBalance := v }
  | _ => u

/-- Whether `c` occurs in `l` as a contiguous sublist. -/
def hasSubstr (c l : List Char) : Bool :=
  l.tails.any (fun t => c.isPrefixOf t)

/-- Model of `t.toLowerCase()` (character-wise lower-casing). -/
def toLowerStr (t : String) : String :=
  String.mk (t.data.map Char.toLower)

/-- Model of `t.substring(n)`. -/
def strDrop (t : String) (n : Nat) : String :=
  String.mk (t.data.drop n)

/-- Model of `paymentMethod.toLowerCase().includes('pesa') ||
paymentMethod.toLowerCase().includes('mpesa')` (the first test subsumes
the second). -/
def isMpesaMethod (m : String) : Bool :=
  hasSubstr "pesa".data (toLowerStr m).data ||
    hasSubstr "mpesa".data (toLowerStr m).data

/-- The `finalPhoneNumber` normalization of the withdrawal route
(routes.ts lines 549-566): strip non-digits, then on the M-Pesa path
ensure the 254 national prefix. -/
def normalizedWithdrawPhone (paymentMethod phoneNumber : String) : String :=
  let cleanPhoneNumber := digitsOnly phoneNumber
  if isMpesaMethod paymentMethod then
    if strStartsWith cleanPhoneNumber "254" then cleanPhoneNumber
    else if strStartsWith cleanPhoneNumber "0" then
      "254" ++ strDrop cleanPhoneNumber 1
    else if strStartsWith cleanPhoneNumber "7" ||
        strStartsWith cleanPhoneNumber "1" then
      "254" ++ cleanPhoneNumber
    else cleanPhoneNumber
  else cleanPhoneNumber

/-- Outcome of the `initiateB2CPayment` call as observed by the route:
the provider's acceptance (`ResponseCode === '0'`) with correlation ids, a
non-accepting response with its optional description, or a thrown error. -/
inductive B2CResult where
  | accepted (conversationID originatorConversationID : String)
  | rejected (responseDescription : Option String)
  | thrown
  deriving Repr, DecidableEq

/-- The route's answer.  The accepted/rejected/error constructors record
the amount that was handed to `initiateB2CPayment`. -/
inductive WithdrawalOutcome where
  | invalidData
  | userNotFound
  | invalidSource
  | insufficientBalance (available requested : Int)
  | invalidPhone
  | b2cAccepted (sentAmount : Int)
  | b2cRejected (sentAmount : Int)
  | b2cError (sentAmount : Int)
  | manualCompleted
  deriving Repr, DecidableEq

/-- The request body accepted by the route's zod schema. -/
structure WithdrawRequest where
  source : String
  amount : Int
  paymentMethod : String
  phoneNumber : String
  deriving Repr, DecidableEq

/-- The M-Pesa branch of the withdrawal route (routes.ts lines 580-636):
create the pending record, then settle against the B2C outcome — on
acceptance move the record to "processing" with the correlation ids,
debit the gross amount from the source balance and append the negative
earning; on rejection or error move the record to "failed" with a reason
and leave balance and earnings alone. -/
def settleMpesaWithdrawal (s : Storage) (userId : Nat) (req : WithdrawRequest)
    (availableBalance : Int) (finalPhoneNumber : String) (b2c : B2CResult) :
    Storage × WithdrawalOutcome :=
  let netAmount := req.amount - 50
  let cw := createWithdrawal s userId req.source req.amount 50 "pending"
    req.paymentMethod finalPhoneNumber
  match b2c with
  | .accepted conversationID originatorConversationID =>
      let s2 := updateWithdrawal cw.1 cw.2.id
        (fun w => { w with
                    status := "processing",
                    mpesaConversationId := some conversationID,
                    mpesaOriginatorConversationId := some originatorConversationID })
      let s3 := (updateUser s2 userId
        (fun u => setBalance u req.source
          (availableBalance - req.amount))).1
      let s4 := createEarning s3
        { userId, source := req.source, amount := -req.amount,
          description := "Withdrawal via " ++ req.paymentMethod ++
            " (Fee: 50 Sh)" }
      (s4, .b2cAccepted netAmount)
  | .rejected responseDescription =>
      (updateWithdrawal cw.1 cw.2.id
        (fun w => { w with
                    status := "failed",
                    failureReason := some (responseDescription.getD "B2C payment initiation failed") }),
       .b2cRejected netAmount)
  | .thrown =>
      (updateWithdrawal cw.1 cw.2.id
        (fun w => { w with
                    status := "failed",
                    failureReason := some "Payment service error" }),
       .b2cError netAmount)

/-- The non-M-Pesa branch of the withdrawal route (routes.ts lines
637-661): mark the record completed immediately, debit the balance and
append the negative earning (manual out-of-band fulfillment). -/
def completeManualWithdrawal (s : Storage) (userId : Nat)
    (req : WithdrawRequest) (availableBalance : Int)
    (finalPhoneNumber : String) : Storage × WithdrawalOutcome :=
  let cw := createWithdrawal s userId req.source req.amount 50 "pending"
    req.paymentMethod finalPhoneNumber
  let s2 := updateWithdrawal cw.1 cw.2.id
    (fun w => { w with status := "completed" })
  let s3 := (updateUser s2 userId
    (fun u => setBalance u req.source (availableBalance - req.amount))).1
  let s4 := createEarning s3
    { userId, source := req.source, amount := -req.amount,
      description := "Withdrawal via " ++ req.paymentMethod ++
        " (Fee: 50 Sh)" }
  (s4, .manualCompleted)

/-- Model of `app.post("/api/withdrawals")` (routes.ts lines 494-670) as a state
transition; `b2c` is the gateway outcome used on the M-Pesa path. -/
def processWithdrawal (s : Storage) (userId : Nat) (req : WithdrawRequest)
    (b2c : B2CResult) : Storage × WithdrawalOutcome :=
  if ¬ (600 ≤ req.amount ∧ 10 ≤ req.phoneNumber.length) then (s, .invalidData)
  else
    match getUser s userId with
    | none => (s, .userNotFound)
    | some user =>
        match balanceOf user req.source with
        | none => (s, .invalidSource)
        | some availableBalance =>
            if availableBalance < req.amount then
              (s, .insufficientBalance availableBalance req.amount)
            else
              let finalPhoneNumber :=
                normalizedWithdrawPhone req.paymentMethod req.phoneNumber
              if isMpesaMethod req.paymentMethod ∧
                  ¬ finalPhoneNumber.length = 12 then (s, .invalidPhone)
              else if isMpesaMethod req.paymentMethod then
                settleMpesaWithdrawal s userId req availableBalance
                  finalPhoneNumber b2c
              else
                completeManualWithdrawal s userId req availableBalance
                  finalPhoneNumber

/-! ### Registration (auth.ts, `app.post("/api/register")`) -/

/-- Model of `storage.createUser(data)` as called by the register handler: inserts
a fresh user row with zero balances, unactivated, carrying the generated
referral code and the resolved referrer id; returns the new row. -/
def createUser (s : Storage) (username : String) (referralCode : String)
    (referrerId : Option Nat) : Storage × User :=
  let u : User :=
    { id := s.nextUserId, username, isActivated := false,
      accountBalance := 0, adBalance := 0, tiktokBalance := 0,
      youtubeBalance := 0, instagramBalance := 0, referralCode, referrerId }
  ({ s with users := s.users ++ [u], nextUserId := s.nextUserId + 1 }, u)

/-- Model of `referralCode.toUpperCase()` (character-wise upper-casing). -/
def toUpperStr (t : String) : String :=
  String.mk (t.data.map Char.toUpper)

/-- Model of `app.post("/api/register")` (auth.ts lines 111-197), referral-relevant
core: resolve the supplied referral code (upper-cased) to a referrer,
create the user with that `referrerId`, and create the single level-1
referral row when a referrer was found.  `newReferralCode` stands for the
randomly generated unique code of the new user. -/
def registerUser (s : Storage) (username : String)
    (referralCode : Option String) (newReferralCode : String) :
    Storage × User :=
  let referrerId : Option Nat :=
    match referralCode with
    | none => none
    | some code => (getUserByReferralCode s (toUpperStr code)).map (fun u => u.id)
  let (s1, newUser) := createUser s username newReferralCode referrerId
  match referrerId with
  | none => (s1, newUser)
  | some rid =>
      (createReferral s1 rid newUser.id newUser.username 1 0 false, newUser)

/-! ### Generic lemmas about the list-based store -/

theorem find?_map_comm {α : Type} (p : α → Bool) (g : α → α)
    (hg : ∀ a, p (g a) = p a) (l : List α) :
    (l.map g).find? p = (l.find? p).map g := by
  induction l with
  | nil => rfl
  | cons a t ih =>
      cases h : p a with
      | false =>
          rw [List.map_cons, List.find?_cons_of_neg _ (by rw [hg a, h]; simp),
            List.find?_cons_of_neg _ (by rw [h]; simp), ih]
      | true =>
          rw [List.map_cons, List.find?_cons_of_pos _ (by rw [hg a, h]),
            List.find?_cons_of_pos _ (by rw [h])]
          rfl

theorem map_self_of_idempotent {α : Type} (g : α → α)
    (hg : ∀ a, g (g a) = g a) (l : List α) :
    (l.map g).map g = l.map g := by
  induction l with
  | nil => rfl
  | cons a t ih => rw [List.map_cons, List.map_cons, hg a, ih]

theorem map_id_of_fix {α : Type} (g : α → α) (l : List α)
    (hg : ∀ a ∈ l, g a = a) : l.map g = l := by
  induction l with
  | nil => rfl
  | cons a t ih =>
      rw [List.map_cons, hg a (List.mem_cons_self a t),
        ih (fun x hx => hg x (List.mem_cons_of_mem a hx))]

theorem mapGet_mapDelete (m : List (String × Nat)) (k : String) :
    mapGet (mapDelete m k) k = none := by
  unfold mapGet mapDelete
  rw [List.find?_filter]
  induction m with
  | nil => rfl
  | cons e t ih =>
      by_cases h : e.1 = k <;> simp [h, ih]

theorem getUser_some_id {s : Storage} {i : Nat} {u : User}
    (h : getUser s i = some u) : u.id = i := by
  unfold getUser at h
  have := List.find?_some h
  simpa using this

theorem getUser_updateUser (s : Storage) (j : Nat) (f : User → User)
    (hid : ∀ u, (f u).id = u.id) (i : Nat) :
    getUser (updateUser s j f).1 i =
      (getUser s i).map (fun u => if u.id == j then f u else u) := by
  unfold getUser updateUser
  exact find?_map_comm _ _
    (fun u => by by_cases h : u.id = j <;> simp [h, hid]) s.users

theorem getUser_updateUser_balance (s : Storage) (j : Nat) (c : Int) (i : Nat) :
    getUser (updateUser s j (fun u => { u with accountBalance := c })).1 i =
      (getUser s i).map
        (fun u => if u.id == j then { u with accountBalance := c } else u) := by
  apply getUser_updateUser
  intro u
  rfl

theorem getUser_updateUser_activate (s : Storage) (j : Nat) (i : Nat) :
    getUser (updateUser s j (fun u => { u with isActivated := true })).1 i =
      (getUser s i).map
        (fun u => if u.id == j then { u with isActivated := true } else u) := by
  apply getUser_updateUser
  intro u
  rfl

theorem getUser_updateUser_reset (s : Storage) (j : Nat) (i : Nat) :
    getUser (updateUser s j
        (fun u => { u with isActivated := false, accountBalance := 0 })).1 i =
      (getUser s i).map
        (fun u => if u.id == j then
          { u with isActivated := false, accountBalance := 0 } else u) := by
  apply getUser_updateUser
  intro u
  rfl

theorem getUser_updateUser_setBalance (s : Storage) (j : Nat) (src : String)
    (v : Int) (i : Nat) :
    getUser (updateUser s j (fun u => setBalance u src v)).1 i =
      (getUser s i).map
        (fun u => if u.id == j then setBalance u src v else u) := by
  apply getUser_updateUser
  intro u
  unfold setBalance
  repeat' split
  all_goals rfl

theorem getReferral_updateReferral (s : Storage) (j : Nat)
    (f : Referral → Referral) (hid : ∀ r, (f r).id = r.id) (i : Nat) :
    getReferral (updateReferral s j f) i =
      (getReferral s i).map (fun r => if r.id == j then f r else r) := by
  unfold getReferral updateReferral
  exact find?_map_comm _ _
    (fun r => by by_cases h : r.id = j <;> simp [h, hid]) s.referrals

theorem getTxn_updateMpesaTransaction (s : Storage) (j : Nat)
    (f : MpesaTransaction → MpesaTransaction)
    (hc : ∀ t, (f t).checkoutRequestId = t.checkoutRequestId) (c : String) :
    getMpesaTransactionByCheckoutId (updateMpesaTransaction s j f) c =
      (getMpesaTransactionByCheckoutId s c).map
        (fun t => if t.id == j then f t else t) := by
  unfold getMpesaTransactionByCheckoutId updateMpesaTransaction
  refine find?_map_comm _ _ (fun t => ?_) s.transactions
  by_cases h : t.id = j <;> simp [h, hc]

/-! ### Frame lemmas for the storage operations -/

theorem getUser_createEarning (s : Storage) (e : Earning) (i : Nat) :
    getUser (createEarning s e) i = getUser s i := rfl

theorem getUser_updateReferral (s : Storage) (j : Nat)
    (f : Referral → Referral) (i : Nat) :
    getUser (updateReferral s j f) i = getUser s i := rfl

/-! ### Frame lemmas for the referral reward engine -/

theorem grantReward_transactions (s : Storage) (r : Referral) (referrer : User)
    (amt : Int) :
    (grantReward s r referrer amt).transactions = s.transactions := rfl

theorem grantReward_pendingMap (s : Storage) (r : Referral) (referrer : User)
    (amt : Int) :
    (grantReward s r referrer amt).pendingActivationsMap =
      s.pendingActivationsMap := rfl

theorem grantReward_isActivated (s : Storage) (r : Referral) (referrer : User)
    (amt : Int) (i : Nat) :
    (getUser (grantReward s r referrer amt) i).map (fun u => u.isActivated) =
      (getUser s i).map (fun u => u.isActivated) := by
  unfold grantReward
  dsimp only
  rw [getUser_updateUser_balance, getUser_createEarning,
    getUser_updateReferral, Option.map_map]
  cases getUser s i with
  | none => rfl
  | some u =>
      by_cases h : u.id = referrer.id <;>
        simp [h, Function.comp, Option.map_some]

theorem processReferralEdge_transactions (s : Storage) (r : Referral) :
    (processReferralEdge s r).transactions = s.transactions := by
  unfold processReferralEdge
  dsimp only
  repeat' split
  all_goals first | rfl | exact grantReward_transactions ..

theorem processReferralEdge_pendingMap (s : Storage) (r : Referral) :
    (processReferralEdge s r).pendingActivationsMap =
      s.pendingActivationsMap := by
  unfold processReferralEdge
  dsimp only
  repeat' split
  all_goals first | rfl | exact grantReward_pendingMap ..

theorem processReferralEdge_isActivated (s : Storage) (r : Referral) (i : Nat) :
    (getUser (processReferralEdge s r) i).map (fun u => u.isActivated) =
      (getUser s i).map (fun u => u.isActivated) := by
  unfold processReferralEdge
  dsimp only
  repeat' split
  all_goals first | rfl | exact grantReward_isActivated ..

theorem foldl_preserve {γ : Type} (Q : Storage → γ)
    (f : Storage → Referral → Storage)
    (hf : ∀ s r, Q (f s r) = Q s) (l : List Referral) (s : Storage) :
    Q (l.foldl f s) = Q s := by
  induction l generalizing s with
  | nil => rfl
  | cons a t ih => rw [List.foldl_cons, ih, hf]

theorem processReferralRewards_transactions (s : Storage) (uid : Nat) :
    (processReferralRewards s uid).transactions = s.transactions :=
  foldl_preserve (fun s => s.transactions) _
    processReferralEdge_transactions _ s

theorem processReferralRewards_pendingMap (s : Storage) (uid : Nat) :
    (processReferralRewards s uid).pendingActivationsMap =
      s.pendingActivationsMap :=
  foldl_preserve (fun s => s.pendingActivationsMap) _
    processReferralEdge_pendingMap _ s

theorem processReferralRewards_isActivated (s : Storage) (uid i : Nat) :
    (getUser (processReferralRewards s uid) i).map (fun u => u.isActivated) =
      (getUser s i).map (fun u => u.isActivated) :=
  congrFun
    (foldl_preserve
      (fun s => fun j => (getUser s j).map (fun u => u.isActivated)) _
      (fun s r => funext (fun j => processReferralEdge_isActivated s r j))
      _ s) i

theorem getReferral_createEarning (s : Storage) (e : Earning) (i : Nat) :
    getReferral (createEarning s e) i = getReferral s i := rfl

theorem getReferral_updateReferral_activate (s : Storage) (j : Nat)
    (amt : Int) (i : Nat) :
    getReferral (updateReferral s j
        (fun r => { r with isActive := true, amount := amt })) i =
      (getReferral s i).map (fun r => if r.id == j then
        { r with isActive := true, amount := amt } else r) := by
  apply getReferral_updateReferral
  intro x
  rfl

theorem getReferral_updateUser (s : Storage) (j : Nat) (f : User → User)
    (i : Nat) : getReferral (updateUser s j f).1 i = getReferral s i := rfl

/-- The `rewardAmount` that `processReferralRewards` computes for a level-1
or level-2 edge: 300 when the referrer has no active level-1 edge yet
(since the edge being processed is itself inactive, these are exactly the
referrer's *other* active level-1 edges), 270 otherwise, and a flat 150
at level 2. -/
def rewardFor (s : Storage) (r : Referral) : Int :=
  if r.level = 1 then
    if ((getReferralsByReferrerId s r.referrerId).filter
        (fun x => x.level == 1 && x.isActive)).length = 0 then 300 else 270
  else 150

/-- C1.  The referral reward engine, processing an inactive level-1 or
level-2 edge of an activated user: the reward is 300 for a level-1 edge
when the referrer has zero other active level-1 edges at computation time
and 270 otherwise, and a flat 150 for a level-2 edge; the edge is marked
active with that amount, an `EarningRecord` of source "referral" for that
amount is appended to the referrer, and the referrer's general balance
increases by exactly that amount. -/
theorem referral_reward_law (s : Storage) (r : Referral) (referrer : User)
    (hinactive : r.isActive = false)
    (hlevel : r.level = 1 ∨ r.level = 2)
    (hr : getReferral s r.id = some r)
    (href : getUser s r.referrerId = some referrer) :
    getReferral (processReferralEdge s r) r.id =
      some { r with isActive := true, amount := rewardFor s r } ∧
    (processReferralEdge s r).earnings = s.earnings ++
      [{ userId := referrer.id, source := "referral",
         amount := rewardFor s r,
         description := "Level " ++ toString r.level ++
           " referral reward for user activation" }] ∧
    getUser (processReferralEdge s r) r.referrerId =
      some { referrer with
        accountBalance := referrer.accountBalance + rewardFor s r } ∧
    (∀ uid, getReferralsByReferredId s uid = [r] →
      processReferralRewards s uid = processReferralEdge s r) := by
  have hrid : referrer.id = r.referrerId := getUser_some_id href
  have hreduce : processReferralEdge s r = grantReward s r referrer (rewardFor s r) := by
    unfold processReferralEdge
    rw [hinactive, href]
    dsimp only
    rcases hlevel with h1 | h2
    · rw [rewardFor, if_pos h1]
      by_cases hz : ((getReferralsByReferrerId s r.referrerId).filter
          (fun x => x.level == 1 && x.isActive)).length = 0
      · simp [h1, hz]
      · simp [h1, hz]
    · have hne1 : r.level ≠ 1 := by omega
      rw [rewardFor, if_neg hne1]
      simp [h2, hne1]
  refine ⟨?_, ?_, ?_, ?_⟩
  · rw [hreduce]
    unfold grantReward
    dsimp only
    rw [getReferral_updateUser, getReferral_createEarning,
      getReferral_updateReferral_activate, hr]
    simp
  · rw [hreduce]
    rfl
  · rw [hreduce]
    unfold grantReward
    dsimp only
    rw [getUser_updateUser_balance, getUser_createEarning,
      getUser_updateReferral, href]
    simp [hrid]
  · intro uid hsingle
    unfold processReferralRewards
    rw [hsingle]
    rfl

/-! ### Concrete sample data used by the witnesses -/

/-- Sample referrer with no referrer of their own. -/
def sampleA : User :=
  { id := 1, username := "alice", isActivated := true, accountBalance := 100,
    adBalance := 5, tiktokBalance := 0, youtubeBalance := 0,
    instagramBalance := 0, referralCode := "AAAAAA", referrerId := none }

/-- Sample referred user, referred by `sampleA`. -/
def sampleB : User :=
  { id := 2, username := "bob", isActivated := false, accountBalance := 0,
    adBalance := 50, tiktokBalance := 0, youtubeBalance := 0,
    instagramBalance := 0, referralCode := "BBBBBB", referrerId := some 1 }

/-- Sample inactive level-1 edge `sampleA -> sampleB`. -/
def sampleE : Referral :=
  { id := 10, referrerId := 1, referredId := 2, referredUsername := "bob",
    level := 1, amount := 0, isActive := false }

/-- Sample store holding the two users and the edge. -/
def sampleS : Storage :=
  { users := [sampleA, sampleB], referrals := [sampleE], earnings := [],
    withdrawals := [], transactions := [], pendingActivationsMap := [],
    nextUserId := 3, nextReferralId := 11, nextWithdrawalId := 1,
    nextTransactionId := 1 }

/-- Witness for C1: the law evaluated on `sampleS` (a first-ever level-1
activation, reward 300). -/
theorem referral_reward_law_witness :
    sampleE.isActive = false ∧
    getReferral sampleS sampleE.id = some sampleE ∧
    getUser sampleS sampleE.referrerId = some sampleA ∧
    rewardFor sampleS sampleE = 300 ∧
    (getReferral (processReferralEdge sampleS sampleE) sampleE.id =
      some { sampleE with isActive := true,
                          amount := rewardFor sampleS sampleE } ∧
    (processReferralEdge sampleS sampleE).earnings = sampleS.earnings ++
      [{ userId := sampleA.id, source := "referral",
         amount := rewardFor sampleS sampleE,
         description := "Level " ++ toString sampleE.level ++
           " referral reward for user activation" }] ∧
    getUser (processReferralEdge sampleS sampleE) sampleE.referrerId =
      some { sampleA with
        accountBalance := sampleA.accountBalance +
          rewardFor sampleS sampleE } ∧
    processReferralRewards sampleS 2 = processReferralEdge sampleS sampleE) :=
  ⟨rfl, rfl, rfl, rfl,
    (referral_reward_law sampleS sampleE sampleA rfl (Or.inl rfl) rfl rfl).1,
    (referral_reward_law sampleS sampleE sampleA rfl (Or.inl rfl) rfl rfl).2.1,
    (referral_reward_law sampleS sampleE sampleA rfl (Or.inl rfl) rfl rfl).2.2.1,
    (referral_reward_law sampleS sampleE sampleA rfl (Or.inl rfl) rfl
      rfl).2.2.2 2 rfl⟩

/-- C2, counterexample.  Registering "carol" on `sampleS` with sampleB's
referral code: sampleB has a referrer of their own (`sampleA`, id 1), yet
the registration handler creates no level-2 edge for the new user — the
claim's "a level-2 edge is created iff the level-1 referrer itself has a
referrer" fails at this input. -/
theorem register_missing_level2_edge :
    (getUserByReferralCode sampleS (toUpperStr "bbbbbb")).map
      (fun u => u.referrerId) = some (some 1) ∧
    ((registerUser sampleS "carol" (some "bbbbbb") "CCCCCC").1.referrals.filter
      (fun r => r.level == 2)) = [] ∧
    (registerUser sampleS "carol" (some "bbbbbb") "CCCCCC").2.referrerId =
      some 2 := by
  refine ⟨?_, ?_, ?_⟩ <;> rfl

/-- C2, amended.  For every registration through the referral-code path
(`/api/register`) whose code resolves to an existing referrer: exactly one
level-1 edge (referrer -> new user, inactive, amount 0) is appended, and
no level-2 edge is created even when the referrer has a referrer of their
own. -/
theorem register_creates_level1_only (s : Storage) (username : String)
    (code newCode : String) (referrer : User)
    (h : getUserByReferralCode s (toUpperStr code) = some referrer) :
    (registerUser s username (some code) newCode).1.referrals =
      s.referrals ++
        [{ id := s.nextReferralId, referrerId := referrer.id,
           referredId := s.nextUserId, referredUsername := username,
           level := 1, amount := 0, isActive := false }] ∧
    (registerUser s username (some code) newCode).2.id = s.nextUserId ∧
    (registerUser s username (some code) newCode).2.referrerId =
      some referrer.id := by
  unfold registerUser
  dsimp only
  rw [h]
  exact ⟨rfl, rfl, rfl⟩

/-- Witness for the amended C2 on `sampleS`. -/
theorem register_creates_level1_only_witness :
    getUserByReferralCode sampleS (toUpperStr "bbbbbb") = some sampleB ∧
    ((registerUser sampleS "carol" (some "bbbbbb") "CCCCCC").1.referrals =
      sampleS.referrals ++
        [{ id := sampleS.nextReferralId, referrerId := sampleB.id,
           referredId := sampleS.nextUserId, referredUsername := "carol",
           level := 1, amount := 0, isActive := false }] ∧
    (registerUser sampleS "carol" (some "bbbbbb") "CCCCCC").2.id =
      sampleS.nextUserId ∧
    (registerUser sampleS "carol" (some "bbbbbb") "CCCCCC").2.referrerId =
      some sampleB.id) :=
  ⟨rfl, register_creates_level1_only sampleS "carol" "bbbbbb" "CCCCCC"
    sampleB rfl⟩

/-! ### Frame lemmas for the callback handler -/

theorem getUser_updateMpesaTransaction (s : Storage) (j : Nat)
    (f : MpesaTransaction → MpesaTransaction) (i : Nat) :
    getUser (updateMpesaTransaction s j f) i = getUser s i := rfl

theorem getTxn_eq_of_transactions {s t : Storage} (c : String)
    (h : s.transactions = t.transactions) :
    getMpesaTransactionByCheckoutId s c =
      getMpesaTransactionByCheckoutId t c := by
  unfold getMpesaTransactionByCheckoutId
  rw [h]

theorem getTxn_update_callbackPatch (s : Storage) (j : Nat)
    (cb : StkCallback) (c : String) :
    getMpesaTransactionByCheckoutId
        (updateMpesaTransaction s j (callbackTxnPatch cb)) c =
      (getMpesaTransactionByCheckoutId s c).map
        (fun t => if t.id == j then callbackTxnPatch cb t else t) := by
  apply getTxn_updateMpesaTransaction
  intro t
  rfl

theorem getTxn_update_failDesc (s : Storage) (j : Nat) (d : String)
    (c : String) :
    getMpesaTransactionByCheckoutId (updateMpesaTransaction s j
        (fun t => { t with status := "failed", resultDesc := some d })) c =
      (getMpesaTransactionByCheckoutId s c).map
        (fun t => if t.id == j then
          { t with status := "failed", resultDesc := some d } else t) := by
  apply getTxn_updateMpesaTransaction
  intro t
  rfl

theorem callbackTxnPatch_idem (cb : StkCallback) (j : Nat)
    (t : MpesaTransaction) :
    (fun x => if x.id == j then callbackTxnPatch cb x else x)
        ((fun x => if x.id == j then callbackTxnPatch cb x else x) t) =
      (fun x => if x.id == j then callbackTxnPatch cb x else x) t := by
  by_cases h : t.id = j
  · simp [h, callbackTxnPatch]
  · simp [h]

/-- C4.  An activation callback whose result code indicates success but
whose paid amount differs from the transaction's expected amount: the
transaction row is marked "failed" with result description
"Amount mismatch", and nothing else changes — the user rows (hence the
awaiting user's `isActivated` flag and every balance), the earnings, the
referral edges and the pending-activation index are untouched. -/
theorem callback_amount_mismatch (s : Storage) (p : CallbackPayload)
    (cb : StkCallback) (transaction : MpesaTransaction) (paid : Int)
    (hbody : p.body = some cb)
    (hsucc : cb.resultCode = 0)
    (htxn : getMpesaTransactionByCheckoutId s cb.checkoutRequestID =
      some transaction)
    (hamt : findItem cb.metadata "Amount" = some paid)
    (hne : paid ≠ transaction.amount) :
    (handleMpesaCallback s p).2 = .amountMismatch ∧
    (handleMpesaCallback s p).1.users = s.users ∧
    (handleMpesaCallback s p).1.earnings = s.earnings ∧
    (handleMpesaCallback s p).1.referrals = s.referrals ∧
    (handleMpesaCallback s p).1.pendingActivationsMap =
      s.pendingActivationsMap ∧
    getMpesaTransactionByCheckoutId (handleMpesaCallback s p).1
        cb.checkoutRequestID =
      some { callbackTxnPatch cb transaction with
             status := "failed", resultDesc := some "Amount mismatch" } := by
  have hred : handleMpesaCallback s p =
      (updateMpesaTransaction
        (updateMpesaTransaction s transaction.id (callbackTxnPatch cb))
        transaction.id
        (fun t => { t with status := "failed",
                           resultDesc := some "Amount mismatch" }),
       .amountMismatch) := by
    unfold handleMpesaCallback
    rw [hbody]
    dsimp only
    rw [htxn]
    dsimp only
    rw [hamt, hsucc]
    simp [hne]
  rw [hred]
  refine ⟨rfl, rfl, rfl, rfl, rfl, ?_⟩
  rw [getTxn_update_failDesc, getTxn_update_callbackPatch, htxn]
  simp [callbackTxnPatch]

/-- Sample pending activation transaction (id 1, user `sampleB`,
expected amount 500, CheckoutRequestID "C1"). -/
def sampleTxn : MpesaTransaction :=
  { id := 1, userId := 2, status := "pending", amount := 500,
    checkoutRequestId := "C1", merchantRequestId := "M1",
    resultCode := none, resultDesc := none, mpesaReceiptNumber := none }

/-- State `sampleS` with the pending transaction and its index entry. -/
def sampleSP : Storage :=
  { sampleS with transactions := [sampleTxn],
                 pendingActivationsMap := [("C1", 2)],
                 nextTransactionId := 2 }

/-- Success callback envelope for "C1" whose paid amount (400) differs
from the expected 500. -/
def badAmountCb : StkCallback :=
  { merchantRequestID := "M1", checkoutRequestID := "C1",
    resultCode := 0, resultDesc := "ok",
    metadata := some [{ name := "Amount", value := 400 }] }

/-- The corresponding payload. -/
def badAmountPayload : CallbackPayload := { body := some badAmountCb }

/-- Witness for C4 on `sampleSP`. -/
theorem callback_amount_mismatch_witness :
    (400 : Int) ≠ sampleTxn.amount ∧
    ((handleMpesaCallback sampleSP badAmountPayload).2 = .amountMismatch ∧
    (handleMpesaCallback sampleSP badAmountPayload).1.users =
      sampleSP.users ∧
    (handleMpesaCallback sampleSP badAmountPayload).1.pendingActivationsMap =
      sampleSP.pendingActivationsMap) := by
  have h := callback_amount_mismatch sampleSP badAmountPayload
    badAmountCb sampleTxn 400 rfl rfl rfl rfl (by decide)
  exact ⟨by decide, h.1, h.2.1, h.2.2.2.2.1⟩

/-- Failure callback envelope for "C1" (result code 1). -/
def failCb : StkCallback :=
  { merchantRequestID := "M1", checkoutRequestID := "C1",
    resultCode := 1, resultDesc := "Request cancelled by user",
    metadata := none }

/-- The corresponding payload. -/
def failPayload : CallbackPayload := { body := some failCb }

/-- C5, counterexample.  On `sampleSP` the tracked user `sampleB` has a
task-category balance `adBalance = 50`; delivering a failure callback for
"C1" leaves that balance at 50, not 0 — so the claim's "all of their
balance counters ... set to zero" fails: only the general balance is
zeroed. -/
theorem callback_failure_keeps_task_balances :
    (handleMpesaCallback sampleSP failPayload).2 = .failureAck ∧
    (getUser (handleMpesaCallback sampleSP failPayload).1 2).map
      (fun u => u.adBalance) = some 50 ∧
    (50 : Int) ≠ 0 := by
  refine ⟨rfl, rfl, by decide⟩

/-- C5, amended.  A failure callback whose correlation identifier resolves
to a transaction and is still tracked in the index: the tracked user is
reset to unactivated with the general balance set to zero (the per-task
balances are untouched), and the index entry is removed. -/
theorem callback_failure_resets (s : Storage) (p : CallbackPayload)
    (cb : StkCallback) (transaction : MpesaTransaction) (uid : Nat) (u : User)
    (hbody : p.body = some cb)
    (hfail : cb.resultCode ≠ 0)
    (htxn : getMpesaTransactionByCheckoutId s cb.checkoutRequestID =
      some transaction)
    (hpend : mapGet s.pendingActivationsMap cb.checkoutRequestID = some uid)
    (hu : getUser s uid = some u) :
    (handleMpesaCallback s p).2 = .failureAck ∧
    getUser (handleMpesaCallback s p).1 uid =
      some { u with isActivated := false, accountBalance := 0 } ∧
    mapGet (handleMpesaCallback s p).1.pendingActivationsMap
      cb.checkoutRequestID = none := by
  have hcode : (cb.resultCode == 0) = false := by
    simpa using hfail
  have hpend1 : mapGet (updateMpesaTransaction s transaction.id
      (callbackTxnPatch cb)).pendingActivationsMap cb.checkoutRequestID =
      some uid := hpend
  have hred : handleMpesaCallback s p =
      (removePendingEntry
        ((updateUser (updateMpesaTransaction s transaction.id
            (callbackTxnPatch cb)) uid
          (fun x => { x with isActivated := false, accountBalance := 0 })).1)
        cb.checkoutRequestID,
       .failureAck) := by
    unfold handleMpesaCallback
    rw [hbody]
    dsimp only
    rw [htxn]
    dsimp only
    rw [hcode]
    simp only [Bool.false_eq_true, if_false]
    rw [hpend1]
  rw [hred]
  dsimp only
  refine ⟨rfl, ?_, ?_⟩
  · have key : getUser (updateUser s uid
        (fun x => { x with isActivated := false, accountBalance := 0 })).1
          uid = some { u with isActivated := false, accountBalance := 0 } := by
      rw [getUser_updateUser_reset, hu]
      have hid : u.id = uid := getUser_some_id hu
      simp [hid]
    exact key
  · exact mapGet_mapDelete _ _

/-- Witness for the amended C5 on `sampleSP` with `failPayload`. -/
theorem callback_failure_resets_witness :
    failCb.resultCode ≠ 0 ∧
    ((handleMpesaCallback sampleSP failPayload).2 = .failureAck ∧
    getUser (handleMpesaCallback sampleSP failPayload).1 2 =
      some { sampleB with isActivated := false, accountBalance := 0 } ∧
    mapGet (handleMpesaCallback sampleSP failPayload).1.pendingActivationsMap
      failCb.checkoutRequestID = none) :=
  ⟨by decide,
   callback_failure_resets sampleSP failPayload failCb sampleTxn 2 sampleB
     rfl (by decide) rfl rfl rfl⟩

/-! ### Lemmas for the duplicate-delivery analysis -/

theorem getUser_removePendingEntry (s : Storage) (k : String) (i : Nat) :
    getUser (removePendingEntry s k) i = getUser s i := rfl

theorem removePendingEntry_transactions (s : Storage) (k : String) :
    (removePendingEntry s k).transactions = s.transactions := rfl

theorem removePendingEntry_pendingMap (s : Storage) (k : String) :
    (removePendingEntry s k).pendingActivationsMap =
      mapDelete s.pendingActivationsMap k := rfl

/-- An unconditional-update patch keyed on any id fixes the transaction
list after one application: the patched fields are constants of the
callback. -/
theorem updateMpesa_idem_on (S : Storage) (j : Nat) (cb : StkCallback)
    (l : List MpesaTransaction)
    (h : S.transactions =
      l.map (fun t => if t.id == j then callbackTxnPatch cb t else t)) :
    updateMpesaTransaction S j (callbackTxnPatch cb) = S := by
  apply Storage.ext
  case transactions =>
    show S.transactions.map
      (fun t => if t.id == j then callbackTxnPatch cb t else t) =
        S.transactions
    rw [h]
    exact map_self_of_idempotent _ (callbackTxnPatch_idem cb j) l
  all_goals rfl

/-- Reduction of the callback handler on a resolved, amount-matching
success callback, down to the pending-index lookup. -/
theorem handleMpesaCallback_success_shape (s : Storage) (p : CallbackPayload)
    (cb : StkCallback) (T : MpesaTransaction)
    (hbody : p.body = some cb)
    (hsucc : cb.resultCode = 0)
    (htxn : getMpesaTransactionByCheckoutId s cb.checkoutRequestID = some T)
    (hamt : findItem cb.metadata "Amount" = some T.amount) :
    handleMpesaCallback s p =
      match mapGet s.pendingActivationsMap cb.checkoutRequestID with
      | none => (updateMpesaTransaction s T.id (callbackTxnPatch cb),
                 .successAck)
      | some uid =>
          let upd := updateUser
            (updateMpesaTransaction s T.id (callbackTxnPatch cb)) uid
            (fun x => { x with isActivated := true })
          if upd.2.isSome then
            (removePendingEntry (processReferralRewards upd.1 uid)
              cb.checkoutRequestID, .successAck)
          else (upd.1, .successAck) := by
  have hsucc2 : (cb.resultCode == 0) = true := by simp [hsucc]
  unfold handleMpesaCallback
  rw [hbody]
  dsimp only
  rw [htxn]
  dsimp only
  rw [if_pos hsucc2, hamt]
  dsimp only
  rw [if_neg (by simp)]
  rfl

/-- C3.  A success callback with matching amount whose correlation
identifier is still tracked: the first delivery activates the tracked
user; delivering the exact same callback a second time returns the success
acknowledgment and leaves the state completely unchanged — in particular
the user stays activated, the referral reward engine does not run again,
and no balance moves. -/
theorem callback_duplicate_idempotent (s : Storage) (p : CallbackPayload)
    (cb : StkCallback) (transaction : MpesaTransaction) (uid : Nat) (u : User)
    (hbody : p.body = some cb)
    (hsucc : cb.resultCode = 0)
    (htxn : getMpesaTransactionByCheckoutId s cb.checkoutRequestID =
      some transaction)
    (hamt : findItem cb.metadata "Amount" = some transaction.amount)
    (hpend : mapGet s.pendingActivationsMap cb.checkoutRequestID = some uid)
    (hu : getUser s uid = some u) :
    (getUser (handleMpesaCallback s p).1 uid).map (fun x => x.isActivated) =
      some true ∧
    handleMpesaCallback (handleMpesaCallback s p).1 p =
      ((handleMpesaCallback s p).1, .successAck) := by
  have hsucc2 : (cb.resultCode == 0) = true := by simp [hsucc]
  have hu1 : getUser (updateMpesaTransaction s transaction.id
      (callbackTxnPatch cb)) uid = some u := hu
  have hsome : (updateUser (updateMpesaTransaction s transaction.id
        (callbackTxnPatch cb)) uid
      (fun x => { x with isActivated := true })).2.isSome = true := by
    unfold updateUser
    dsimp only
    have hfind : (updateMpesaTransaction s transaction.id
        (callbackTxnPatch cb)).users.find? (fun x => x.id == uid) =
        some u := hu
    rw [hfind]
    rfl
  have hchar : ∃ S1,
      handleMpesaCallback s p = (S1, .successAck) ∧
      S1.transactions = s.transactions.map
        (fun t => if t.id == transaction.id then callbackTxnPatch cb t
                  else t) ∧
      mapGet S1.pendingActivationsMap cb.checkoutRequestID = none ∧
      (getUser S1 uid).map (fun x => x.isActivated) = some true := by
    refine ⟨removePendingEntry
      (processReferralRewards
        (updateUser (updateMpesaTransaction s transaction.id
            (callbackTxnPatch cb)) uid
          (fun x => { x with isActivated := true })).1 uid)
      cb.checkoutRequestID, ?_, ?_, ?_, ?_⟩
    · rw [handleMpesaCallback_success_shape s p cb transaction hbody hsucc
        htxn hamt, hpend]
      dsimp only
      rw [if_pos hsome]
    · rw [removePendingEntry_transactions, processReferralRewards_transactions]
      rfl
    · rw [removePendingEntry_pendingMap]
      exact mapGet_mapDelete _ _
    · rw [getUser_removePendingEntry, processReferralRewards_isActivated,
        getUser_updateUser_activate, hu1]
      simp [getUser_some_id hu]
  rcases hchar with ⟨S1, hfirst, hS1tr, hS1pend, hS1act⟩
  have hS1txn : getMpesaTransactionByCheckoutId S1 cb.checkoutRequestID =
      some (callbackTxnPatch cb transaction) := by
    unfold getMpesaTransactionByCheckoutId
    rw [hS1tr, find?_map_comm _ _
      (fun t => by by_cases h : t.id = transaction.id <;>
        simp [h, callbackTxnPatch]) s.transactions]
    have hfindt : s.transactions.find?
        (fun t => t.checkoutRequestId == cb.checkoutRequestID) =
        some transaction := htxn
    rw [hfindt]
    simp
  have hamt2 : findItem cb.metadata "Amount" =
      some (callbackTxnPatch cb transaction).amount := hamt
  have hfix : updateMpesaTransaction S1 (callbackTxnPatch cb transaction).id
      (callbackTxnPatch cb) = S1 :=
    updateMpesa_idem_on S1 (callbackTxnPatch cb transaction).id cb
      s.transactions hS1tr
  refine ⟨?_, ?_⟩
  · rw [hfirst]
    exact hS1act
  · rw [hfirst]
    rw [handleMpesaCallback_success_shape S1 p cb
      (callbackTxnPatch cb transaction) hbody hsucc hS1txn hamt2, hS1pend]
    dsimp only
    rw [hfix]

/-- Success callback envelope for "C1" with the matching amount 500. -/
def goodCb : StkCallback :=
  { merchantRequestID := "M1", checkoutRequestID := "C1",
    resultCode := 0, resultDesc := "The service request is processed successfully.",
    metadata := some [{ name := "Amount", value := 500 },
                      { name := "MpesaReceiptNumber", value := 777 }] }

/-- The corresponding payload. -/
def goodPayload : CallbackPayload := { body := some goodCb }

/-- Witness for C3 on `sampleSP` with `goodPayload`. -/
theorem callback_duplicate_idempotent_witness :
    goodCb.resultCode = 0 ∧
    mapGet sampleSP.pendingActivationsMap goodCb.checkoutRequestID = some 2 ∧
    ((getUser (handleMpesaCallback sampleSP goodPayload).1 2).map
       (fun x => x.isActivated) = some true ∧
     handleMpesaCallback (handleMpesaCallback sampleSP goodPayload).1
         goodPayload =
       ((handleMpesaCallback sampleSP goodPayload).1, .successAck)) :=
  ⟨rfl, rfl,
   callback_duplicate_idempotent sampleSP goodPayload goodCb sampleTxn 2
     sampleB rfl rfl rfl rfl rfl rfl⟩

/-- A well-formed payload is never answered with the malformed-callback
error. -/
theorem callback_response_not_malformed (s : Storage) (p : CallbackPayload)
    (cb : StkCallback) (hb : p.body = some cb) :
    (handleMpesaCallback s p).2 ≠ .malformed := by
  unfold handleMpesaCallback
  rw [hb]
  dsimp only
  repeat' split
  all_goals simp

/-- A well-formed payload resolving to a known transaction whose amount
matches (when the result code indicates success) is acknowledged. -/
theorem callback_ack_of_resolved (s : Storage) (p : CallbackPayload)
    (cb : StkCallback) (T : MpesaTransaction)
    (hb : p.body = some cb)
    (ht : getMpesaTransactionByCheckoutId s cb.checkoutRequestID = some T)
    (hA : cb.resultCode = 0 → findItem cb.metadata "Amount" = some T.amount) :
    ((handleMpesaCallback s p).2).isAck = true := by
  unfold handleMpesaCallback
  rw [hb]
  dsimp only
  rw [ht]
  dsimp only
  by_cases h0 : cb.resultCode = 0
  · rw [if_pos (by simp [h0]), hA h0]
    dsimp only
    rw [if_neg (by simp)]
    repeat' split
    all_goals rfl
  · rw [if_neg (by simp [h0])]
    repeat' split
    all_goals rfl

/-- Success callback for a correlation identifier ("CX") that matches no
transaction row. -/
def unknownCb : StkCallback :=
  { merchantRequestID := "MX", checkoutRequestID := "CX",
    resultCode := 0, resultDesc := "ok",
    metadata := some [{ name := "Amount", value := 500 }] }

/-- The corresponding payload. -/
def unknownPayload : CallbackPayload := { body := some unknownCb }

/-- C6, counterexample.  `unknownPayload` carries the expected envelope
(it is not structurally malformed), yet the handler answers it with the
`UnknownTransaction` error instead of a success acknowledgment, because
its correlation identifier "CX" matches no transaction row of
`sampleSP`. -/
theorem callback_wellformed_but_error :
    unknownPayload.body ≠ none ∧
    getMpesaTransactionByCheckoutId sampleSP "CX" = none ∧
    (handleMpesaCallback sampleSP unknownPayload).2 = .unknownTransaction ∧
    ((handleMpesaCallback sampleSP unknownPayload).2).isAck = false := by
  refine ⟨by simp [unknownPayload], rfl, rfl, rfl⟩

/-- C6, amended.  The handler answers `MalformedCallback` exactly for a
structurally malformed payload (missing envelope); a well-formed payload
is acknowledged with success provided its correlation identifier resolves
to a known transaction and, when the result code indicates success, the
paid amount is present and equals the expected amount.  (A well-formed
payload with an unknown transaction, missing paid amount, or mismatched
amount is answered with the corresponding error, not an
acknowledgment.) -/
theorem callback_ack_iff (s : Storage) (p : CallbackPayload) :
    ((handleMpesaCallback s p).2 = .malformed ↔ p.body = none) ∧
    ∀ cb T, p.body = some cb →
      getMpesaTransactionByCheckoutId s cb.checkoutRequestID = some T →
      (cb.resultCode = 0 → findItem cb.metadata "Amount" = some T.amount) →
      ((handleMpesaCallback s p).2).isAck = true := by
  constructor
  · constructor
    · intro h
      cases hb : p.body with
      | none => rfl
      | some cb => exact absurd h (callback_response_not_malformed s p cb hb)
    · intro h
      unfold handleMpesaCallback
      rw [h]
  · intro cb T hb ht hA
    exact callback_ack_of_resolved s p cb T hb ht hA

/-- Witness for the amended C6: the malformed test and the acknowledgment
on the resolved matching callback `goodPayload` over `sampleSP`. -/
theorem callback_ack_iff_witness :
    ((handleMpesaCallback sampleSP goodPayload).2 = .malformed ↔
      goodPayload.body = none) ∧
    ((handleMpesaCallback sampleSP goodPayload).2).isAck = true :=
  ⟨(callback_ack_iff sampleSP goodPayload).1,
   (callback_ack_iff sampleSP goodPayload).2 goodCb sampleTxn rfl rfl
     (fun _ => rfl)⟩

/-! ### Withdrawal settlement theorems -/

/-- C7.  A withdrawal request passing schema validation whose gross amount
exceeds the available balance of the requested source: the request is
rejected with an outcome reporting both the available and the requested
value, and the state is returned completely unchanged — no balance
mutation, no `EarningRecord`, no `WithdrawalRecord`. -/
theorem withdrawal_insufficient_balance (s : Storage) (userId : Nat)
    (req : WithdrawRequest) (b2c : B2CResult) (u : User) (avail : Int)
    (hvalid : 600 ≤ req.amount ∧ 10 ≤ req.phoneNumber.length)
    (hu : getUser s userId = some u)
    (hbal : balanceOf u req.source = some avail)
    (hlt : avail < req.amount) :
    processWithdrawal s userId req b2c =
      (s, .insufficientBalance avail req.amount) := by
  unfold processWithdrawal
  rw [if_neg (not_not_intro hvalid), hu]
  dsimp only
  rw [hbal]
  dsimp only
  rw [if_pos hlt]

/-- State `sampleS` with the referrer's general balance at 500 (the scenario of
spec §8: a 1000-unit request against a 500-unit balance). -/
def sampleS500 : Storage :=
  { sampleS with users := [{ sampleA with accountBalance := 500 }, sampleB] }

/-- The over-large withdrawal request. -/
def overRequest : WithdrawRequest :=
  { source := "referral", amount := 1000, paymentMethod := "M-Pesa",
    phoneNumber := "0712345678" }

/-- Witness for C7: a 1000-unit request against a 500-unit referral
balance is rejected reporting 500 and 1000, with the state unchanged. -/
theorem withdrawal_insufficient_balance_witness :
    (600 ≤ overRequest.amount ∧ 10 ≤ overRequest.phoneNumber.length) ∧
    ((500 : Int) < overRequest.amount) ∧
    processWithdrawal sampleS500 1 overRequest .thrown =
      (sampleS500, .insufficientBalance 500 overRequest.amount) :=
  ⟨⟨by decide, by decide⟩, by decide,
   withdrawal_insufficient_balance sampleS500 1 overRequest .thrown
     { sampleA with accountBalance := 500 } 500
     ⟨by decide, by decide⟩ rfl rfl (by decide)⟩

theorem withdrawals_createEarning (s : Storage) (e : Earning) :
    (createEarning s e).withdrawals = s.withdrawals := rfl

theorem withdrawals_updateUser (s : Storage) (j : Nat) (f : User → User) :
    ((updateUser s j f).1).withdrawals = s.withdrawals := rfl

theorem withdrawals_updateWithdrawal (s : Storage) (j : Nat)
    (f : WithdrawalRec → WithdrawalRec) :
    (updateWithdrawal s j f).withdrawals =
      s.withdrawals.map (fun w => if w.id == j then f w else w) := rfl

theorem createWithdrawal_snd (s : Storage) (userId : Nat) (source : String)
    (amount fee : Int) (status paymentMethod phoneNumber : String) :
    (createWithdrawal s userId source amount fee status paymentMethod
        phoneNumber).2 =
      { id := s.nextWithdrawalId, userId, source, amount, fee, status,
        paymentMethod, phoneNumber, mpesaConversationId := none,
        mpesaOriginatorConversationId := none, failureReason := none } := rfl

theorem createWithdrawal_fst_withdrawals (s : Storage) (userId : Nat)
    (source : String) (amount fee : Int)
    (status paymentMethod phoneNumber : String) :
    ((createWithdrawal s userId source amount fee status paymentMethod
        phoneNumber).1).withdrawals =
      s.withdrawals ++ [(createWithdrawal s userId source amount fee status
        paymentMethod phoneNumber).2] := rfl

theorem getUser_updateWithdrawal (s : Storage) (j : Nat)
    (f : WithdrawalRec → WithdrawalRec) (i : Nat) :
    getUser (updateWithdrawal s j f) i = getUser s i := rfl

theorem getUser_createWithdrawal (s : Storage) (userId : Nat)
    (source : String) (amount fee : Int)
    (status paymentMethod phoneNumber : String) (i : Nat) :
    getUser ((createWithdrawal s userId source amount fee status
      paymentMethod phoneNumber).1) i = getUser s i := rfl

/-- Patching the freshly appended record touches nothing else when the
fresh id is new. -/
theorem map_patch_append (l : List WithdrawalRec) (w : WithdrawalRec)
    (f : WithdrawalRec → WithdrawalRec) (hl : ∀ x ∈ l, x.id ≠ w.id) :
    (l ++ [w]).map (fun x => if x.id == w.id then f x else x) =
      l ++ [f w] := by
  rw [List.map_append,
    map_id_of_fix _ l (fun x hx => by simp [hl x hx])]
  simp

/-- C8.  A validated M-Pesa withdrawal with sufficient balance.  On an
accepted disbursement, the gateway is invoked with the net amount (gross
minus the fixed fee of 50), the new `WithdrawalRecord` moves from
"pending" to "processing" with the gateway correlation identifiers
recorded, the source balance decreases by exactly the gross amount, and
exactly one `EarningRecord` of amount minus-gross is appended.  On a
rejected or erroring disbursement, the record moves to "failed" with a
reason, and both the user rows (balances) and the earnings ledger are
unchanged. -/
theorem withdrawal_mpesa_settlement (s : Storage) (userId : Nat)
    (req : WithdrawRequest) (u : User) (avail : Int)
    (hvalid : 600 ≤ req.amount ∧ 10 ≤ req.phoneNumber.length)
    (hu : getUser s userId = some u)
    (hbal : balanceOf u req.source = some avail)
    (hge : req.amount ≤ avail)
    (hmp : isMpesaMethod req.paymentMethod = true)
    (hphone : (normalizedWithdrawPhone req.paymentMethod
      req.phoneNumber).length = 12)
    (hfresh : ∀ w ∈ s.withdrawals, w.id ≠ s.nextWithdrawalId) :
    (∀ cid oid,
      (processWithdrawal s userId req (.accepted cid oid)).2 =
        .b2cAccepted (req.amount - 50) ∧
      (processWithdrawal s userId req (.accepted cid oid)).1.withdrawals =
        s.withdrawals ++
          [{ id := s.nextWithdrawalId, userId := userId, source := req.source,
             amount := req.amount, fee := 50, status := "processing",
             paymentMethod := req.paymentMethod,
             phoneNumber := normalizedWithdrawPhone req.paymentMethod
               req.phoneNumber,
             mpesaConversationId := some cid,
             mpesaOriginatorConversationId := some oid,
             failureReason := none }] ∧
      getUser (processWithdrawal s userId req (.accepted cid oid)).1 userId =
        some (setBalance u req.source (avail - req.amount)) ∧
      (processWithdrawal s userId req (.accepted cid oid)).1.earnings =
        s.earnings ++
          [{ userId := userId, source := req.source, amount := -req.amount,
             description := "Withdrawal via " ++ req.paymentMethod ++
               " (Fee: 50 Sh)" }]) ∧
    (∀ d,
      (processWithdrawal s userId req (.rejected d)).2 =
        .b2cRejected (req.amount - 50) ∧
      (processWithdrawal s userId req (.rejected d)).1.users = s.users ∧
      (processWithdrawal s userId req (.rejected d)).1.earnings =
        s.earnings ∧
      (processWithdrawal s userId req (.rejected d)).1.withdrawals =
        s.withdrawals ++
          [{ id := s.nextWithdrawalId, userId := userId, source := req.source,
             amount := req.amount, fee := 50, status := "failed",
             paymentMethod := req.paymentMethod,
             phoneNumber := normalizedWithdrawPhone req.paymentMethod
               req.phoneNumber,
             mpesaConversationId := none,
             mpesaOriginatorConversationId := none,
             failureReason := some (d.getD "B2C payment initiation failed") }]) ∧
    ((processWithdrawal s userId req .thrown).2 =
        .b2cError (req.amount - 50) ∧
      (processWithdrawal s userId req .thrown).1.users = s.users ∧
      (processWithdrawal s userId req .thrown).1.earnings = s.earnings ∧
      (processWithdrawal s userId req .thrown).1.withdrawals =
        s.withdrawals ++
          [{ id := s.nextWithdrawalId, userId := userId, source := req.source,
             amount := req.amount, fee := 50, status := "failed",
             paymentMethod := req.paymentMethod,
             phoneNumber := normalizedWithdrawPhone req.paymentMethod
               req.phoneNumber,
             mpesaConversationId := none,
             mpesaOriginatorConversationId := none,
             failureReason := some "Payment service error" }]) := by
  have hshape : ∀ b2c, processWithdrawal s userId req b2c =
      settleMpesaWithdrawal s userId req avail
        (normalizedWithdrawPhone req.paymentMethod req.phoneNumber) b2c := by
    intro b2c
    unfold processWithdrawal
    rw [if_neg (not_not_intro hvalid), hu]
    dsimp only
    rw [hbal]
    dsimp only
    rw [if_neg (not_lt.mpr hge)]
    rw [if_neg (by simp [hphone]), if_pos hmp]
  refine ⟨?_, ?_, ?_⟩
  · intro cid oid
    rw [hshape]
    unfold settleMpesaWithdrawal
    dsimp only
    refine ⟨rfl, ?_, ?_, rfl⟩
    · rw [withdrawals_createEarning, withdrawals_updateUser,
        withdrawals_updateWithdrawal, createWithdrawal_fst_withdrawals,
        createWithdrawal_snd,
        map_patch_append _ _ _ (fun x hx => hfresh x hx)]
    · rw [getUser_createEarning, getUser_updateUser_setBalance,
        getUser_updateWithdrawal, getUser_createWithdrawal, hu]
      simp [getUser_some_id hu]
  · intro d
    rw [hshape]
    unfold settleMpesaWithdrawal
    dsimp only
    refine ⟨rfl, rfl, rfl, ?_⟩
    rw [withdrawals_updateWithdrawal, createWithdrawal_fst_withdrawals,
      createWithdrawal_snd,
      map_patch_append _ _ _ (fun x hx => hfresh x hx)]
  · rw [hshape]
    unfold settleMpesaWithdrawal
    dsimp only
    refine ⟨rfl, rfl, rfl, ?_⟩
    rw [withdrawals_updateWithdrawal, createWithdrawal_fst_withdrawals,
      createWithdrawal_snd,
      map_patch_append _ _ _ (fun x hx => hfresh x hx)]

/-- State `sampleS` with a 1000-unit ad balance for the withdrawing user. -/
def sampleSW : Storage :=
  { sampleS with users := [{ sampleA with adBalance := 1000 }, sampleB] }

/-- A valid 600-unit M-Pesa withdrawal request from the ad balance. -/
def adRequest : WithdrawRequest :=
  { source := "ad", amount := 600, paymentMethod := "M-Pesa",
    phoneNumber := "0712345678" }

/-- Witness for C8 on `sampleSW`: accepted and rejected disbursements. -/
theorem withdrawal_mpesa_settlement_witness :
    isMpesaMethod adRequest.paymentMethod = true ∧
    ((processWithdrawal sampleSW 1 adRequest (.accepted "CV1" "OC1")).2 =
      .b2cAccepted 550 ∧
     getUser (processWithdrawal sampleSW 1 adRequest
         (.accepted "CV1" "OC1")).1 1 =
       some (setBalance { sampleA with adBalance := 1000 } "ad" 400) ∧
     (processWithdrawal sampleSW 1 adRequest (.rejected none)).1.users =
       sampleSW.users ∧
     (processWithdrawal sampleSW 1 adRequest (.rejected none)).1.earnings =
       sampleSW.earnings) := by
  have h := withdrawal_mpesa_settlement sampleSW 1 adRequest
    { sampleA with adBalance := 1000 } 1000
    ⟨by decide, by decide⟩ rfl rfl (by decide) rfl rfl
    (fun w hw => by simp [sampleSW, sampleS] at hw)
  refine ⟨rfl, (h.1 "CV1" "OC1").1, ?_, (h.2.1 none).2.1, (h.2.1 none).2.2.1⟩
  have := (h.1 "CV1" "OC1").2.2.1
  simpa using this

/-! ### Activation initiation theorems -/

/-- A user with an old failed transaction (id 1) and a newer,
still-pending, index-tracked transaction (id 2, "C2"): the failing input
for C9. -/
def staleS : Storage :=
  { sampleS with
    transactions :=
      [{ id := 1, userId := 2, status := "failed", amount := 500,
         checkoutRequestId := "C0", merchantRequestId := "M0",
         resultCode := some 1, resultDesc := some "Request cancelled by user",
         mpesaReceiptNumber := none },
       { id := 2, userId := 2, status := "pending", amount := 500,
         checkoutRequestId := "C2", merchantRequestId := "M2",
         resultCode := none, resultDesc := none,
         mpesaReceiptNumber := none }],
    pendingActivationsMap := [("C2", 2)],
    nextTransactionId := 3 }

/-- C9.  The stale-entry check inspects the wrong transaction: the route
reads `transactions[transactions.length - 1]` of a list ordered by
*descending* id, i.e. the user's OLDEST transaction, though the variable
is named `latest` and the check is meant to look at the latest one.  On
`staleS` the user's latest transaction (id 2, tracked as "C2") is still
"pending", so a new attempt must be rejected — but because the oldest
transaction (id 1) is "failed", the route clears the in-flight "C2" index
entry and initiates a fresh attempt. -/
theorem activate_stale_check_uses_oldest :
    mapGet staleS.pendingActivationsMap "C2" = some 2 ∧
    ((getMpesaTransactionsByUserId staleS 2).head?).map
      (fun t => (t.id, t.status)) = some (2, "pending") ∧
    ((getMpesaTransactionsByUserId staleS 2).getLast?).map
      (fun t => (t.id, t.status)) = some (1, "failed") ∧
    (activateUser staleS sampleB "M-Pesa" "254712345678" 500
      (.ok "C3" "M3")).2 = .initiated "C3" ∧
    mapGet (activateUser staleS sampleB "M-Pesa" "254712345678" 500
      (.ok "C3" "M3")).1.pendingActivationsMap "C2" = none := by
  refine ⟨rfl, rfl, rfl, rfl, rfl⟩

/-- C10.  Initiating activation is not atomic on gateway failure: with the
guards passed (valid phone, M-Pesa method, user not activated, no pending
index entry), when the STK push throws after the `PaymentTransactionRecord`
was created, the route returns the payment error while the fresh row
persists in "pending" status with empty correlation identifiers, and no
pending-activation index entry is registered (nor is any other table
touched). -/
theorem activate_gateway_throw_not_atomic (s : Storage) (u : User)
    (phoneRaw : String) (amt : Int)
    (hph1 : strStartsWith (digitsOnly phoneRaw) "254" = true)
    (hph2 : (digitsOnly phoneRaw).length = 12)
    (hact : u.isActivated = false)
    (hpend : hasPendingFor s.pendingActivationsMap u.id = false) :
    activateUser s u "M-Pesa" phoneRaw amt .thrown =
      ((createMpesaTransaction s u.id "pending" amt "" "").1,
       .paymentError) ∧
    ((createMpesaTransaction s u.id "pending" amt "" "").1).transactions =
      s.transactions ++
        [{ id := s.nextTransactionId, userId := u.id, status := "pending",
           amount := amt, checkoutRequestId := "", merchantRequestId := "",
           resultCode := none, resultDesc := none,
           mpesaReceiptNumber := none }] ∧
    ((createMpesaTransaction s u.id "pending" amt "" "").1).pendingActivationsMap =
      s.pendingActivationsMap ∧
    ((createMpesaTransaction s u.id "pending" amt "" "").1).users = s.users ∧
    ((createMpesaTransaction s u.id "pending" amt "" "").1).earnings =
      s.earnings := by
  refine ⟨?_, rfl, rfl, rfl, rfl⟩
  unfold activateUser
  dsimp only
  rw [if_neg (not_not_intro hph1),
    if_neg (not_not_intro (by simp [hph2])),
    if_pos (by rfl), hact]
  simp only [Bool.false_eq_true, if_false]
  rw [if_neg (by simp [hpend])]
  rfl

/-- Witness for C10 on `sampleS` and `sampleB`. -/
theorem activate_gateway_throw_not_atomic_witness :
    sampleB.isActivated = false ∧
    hasPendingFor sampleS.pendingActivationsMap sampleB.id = false ∧
    (activateUser sampleS sampleB "M-Pesa" "254712345678" 500 .thrown =
      ((createMpesaTransaction sampleS sampleB.id "pending" 500 "" "").1,
       .paymentError) ∧
    ((createMpesaTransaction sampleS sampleB.id "pending" 500 "" "").1).transactions =
      sampleS.transactions ++
        [{ id := sampleS.nextTransactionId, userId := sampleB.id,
           status := "pending", amount := 500, checkoutRequestId := "",
           merchantRequestId := "", resultCode := none, resultDesc := none,
           mpesaReceiptNumber := none }] ∧
    ((createMpesaTransaction sampleS sampleB.id "pending" 500 "" "").1).pendingActivationsMap =
      sampleS.pendingActivationsMap) := by
  have h := activate_gateway_throw_not_atomic sampleS sampleB
    "254712345678" 500 rfl rfl rfl rfl
  exact ⟨rfl, rfl, h.1, h.2.1, h.2.2.1⟩

end MoneyQash
